import Mathlib

/-!
Verification development for the `wechat-jsonbot` channel plugin.

The plugin's pure logic is shallowly embedded here.  JavaScript strings are
modelled as `List Char` (named `Str`); the JavaScript string operations used
by the source (`trim`, `toLowerCase`, `toUpperCase`, `startsWith`, `slice`,
`split`) are modelled directly on `Str`.  HTTP POSTs performed by the code
are modelled by an oracle `net : PostRequest → PostResult`, and each send
function returns, besides its outcome, the list of requests it issued, in
order.  The webhook handler is modelled as a pure function from the request,
the configuration, an abstract JSON parser and the host inbound pipeline to
a `WebhookResult` record describing the HTTP response sent, the arguments of
the asynchronous dispatch (if any) and the error log of that asynchronous
stage.
-/

namespace WechatJsonBot

/-- JavaScript strings are modelled as lists of characters. -/
abbrev Str := List Char

/-- Model of `String.prototype.trim`: drop leading and trailing whitespace. -/
def jsTrim (s : Str) : Str :=
  List.rdropWhile Char.isWhitespace (s.dropWhile Char.isWhitespace)

/-- Model of `String.prototype.toLowerCase` (ASCII case mapping). -/
def jsToLower (s : Str) : Str := s.map Char.toLower

/-- Model of `String.prototype.toUpperCase` (ASCII case mapping). -/
def jsToUpper (s : Str) : Str := s.map Char.toUpper

/-- Model of `s.startsWith(p)`. -/
def jsStarts (s p : Str) : Bool := p.isPrefixOf s

/-- Model of `String(n)` on a nonnegative number. -/
def natStr (n : Nat) : Str := (Nat.repr n).data

/-- Model of `Math.round` on a (JSON-parsed, hence finite) number:
rounds half toward positive infinity. -/
def jsRound (q : Rat) : Int := Rat.floor (q + 1/2)

/-! ## Configuration data model (`channel.ts`)

`OpenClawConfig` is an untyped host record; the plugin reads and writes only
`channels.wechat`.  Fields of the host record not touched by this plugin are
modelled by association lists `extra`, so frame properties can be stated. -/

/-- Model of the raw `channels.wechat` record, a
`WechatJsonBotAccountConfig` with possible unknown extra keys. -/
structure WechatRaw where
  enabled : Option Bool := none
  name : Option Str := none
  jsonBotBaseUrl : Option Str := none
  inboundToken : Option Str := none
  extra : List (Str × Str) := []
  deriving DecidableEq

/-- Model of the `cfg.channels` record: the `wechat` entry plus all other
channel entries, kept abstract. -/
structure ChannelsRecord where
  wechat : Option WechatRaw := none
  extra : List (Str × Str) := []
  deriving DecidableEq

/-- Model of `OpenClawConfig`: the `channels` field plus all other top-level
fields, kept abstract. -/
structure OpenClawConfig where
  channels : Option ChannelsRecord := none
  extra : List (Str × Str) := []
  deriving DecidableEq

/-- Modelled from the spec: the plugin-sdk constant `DEFAULT_ACCOUNT_ID`
(the single fixed default account id; its exact value is irrelevant to the
plugin's logic). -/
def DEFAULT_ACCOUNT_ID : Str := "default".data

/-- Model of `resolveWechatConfig`: `cfg.channels?.["wechat"] ?? {}`. -/
def resolveWechatConfig (cfg : OpenClawConfig) : WechatRaw :=
  ((cfg.channels.map ChannelsRecord.wechat).getD none).getD {}

/-- Model of `ResolvedWechatJsonBotAccount`. -/
structure ResolvedWechatJsonBotAccount where
  accountId : Str
  enabled : Bool
  name : Option Str
  config : WechatRaw
  deriving DecidableEq

/-- Model of `resolveWechatAccount`. -/
def resolveWechatAccount (cfg : OpenClawConfig) (accountId : Option Str) :
    ResolvedWechatJsonBotAccount :=
  let t := jsTrim (accountId.getD DEFAULT_ACCOUNT_ID)
  let aid := if t = [] then DEFAULT_ACCOUNT_ID else t
  let config := resolveWechatConfig cfg
  { accountId := aid
    enabled := config.enabled.getD true
    name := config.name
    config := config }

/-- Model of `normalizeWechatTarget`: trim, strip one leading
case-insensitive `wechat:` or `wx:` scheme prefix, trim again. -/
def normalizeWechatTarget (raw : Str) : Str :=
  let t := jsTrim raw
  let stripped :=
    if jsStarts (jsToLower t) ("wechat:".data) then t.drop 7
    else if jsStarts (jsToLower t) ("wx:".data) then t.drop 3
    else t
  jsTrim stripped

/-- Model of `normalizeBaseUrl` (`channel.ts`): trim; empty becomes
`undefined`; otherwise strip all trailing `/` and `\` characters. -/
def normalizeBaseUrl (raw : Option Str) : Option Str :=
  let trimmed := jsTrim (raw.getD [])
  if trimmed = [] then none
  else some (List.rdropWhile (fun c => c = '/' || c = '\\') trimmed)

/-- Model of the base-URL guard shared by `sendText`/`sendMedia`:
`normalizeBaseUrl(account.config.jsonBotBaseUrl)` followed by the falsy
check `if (!baseUrl)`, which also rejects the empty string. -/
def baseUrlOf (cfg : OpenClawConfig) : Option Str :=
  let account := resolveWechatAccount cfg (some DEFAULT_ACCOUNT_ID)
  match normalizeBaseUrl account.config.jsonBotBaseUrl with
  | none => none
  | some b => if b = [] then none else some b

/-! ## Outbound delivery (`channel.ts`) -/

/-- One HTTP POST issued through `postJson`: target URL, the JSON payload
fields `session_name`, `content`, `type`, and the timeout passed. -/
structure PostRequest where
  url : Str
  session_name : Str
  content : Str
  ptype : Str
  timeoutMs : Nat
  deriving DecidableEq

/-- The result record returned by `postJson`. -/
structure PostResult where
  ok : Bool
  status : Option Nat := none
  error : Option Str := none
  deriving DecidableEq

/-- The record returned by a successful `sendText`/`sendMedia`. -/
structure SendResult where
  channel : Str
  messageId : Str
  chatId : Str
  deriving DecidableEq

/-- Model of `String(result.status ?? "")`. -/
def statusStr (r : PostResult) : Str := (r.status.map natStr).getD []

/-- Model of `String(result.error ?? "")`. -/
def errTextStr (r : PostResult) : Str := r.error.getD []

/-- The error message thrown when no base URL is configured. -/
def missingBaseUrlMsg : Str := "wechat: missing channels.wechat.jsonBotBaseUrl".data

/-- The error message thrown by `sendText` on a non-ok POST. -/
def replyFailMsg (r : PostResult) : Str :=
  "wechat: json_bot /reply failed status=".data ++ statusStr r
    ++ " err=".data ++ errTextStr r

/-- The error message thrown by `sendMedia` on a non-ok caption POST. -/
def captionFailMsg (r : PostResult) : Str :=
  "wechat: json_bot /reply caption failed status=".data ++ statusStr r
    ++ " err=".data ++ errTextStr r

/-- The error message thrown by `sendMedia` on a non-ok file POST. -/
def fileFailMsg (r : PostResult) : Str :=
  "wechat: json_bot /reply file failed status=".data ++ statusStr r
    ++ " err=".data ++ errTextStr r

/-- The success record both send functions return:
`{channel:"wechat", messageId:"wechat:"+Date.now(), chatId:sessionName}`. -/
def sendOk (sessionName : Str) (now : Nat) : SendResult :=
  { channel := "wechat".data
    messageId := "wechat:".data ++ natStr now
    chatId := sessionName }

/-- The POST issued for a text payload:
`{session_name, content, type:"text"}` to `<baseUrl>/reply`, 5s timeout. -/
def replyTextReq (baseUrl sessionName content : Str) : PostRequest :=
  { url := baseUrl ++ "/reply".data
    session_name := sessionName
    content := content
    ptype := "text".data
    timeoutMs := 5000 }

/-- The POST issued for a file payload:
`{session_name, content, type:"file"}` to `<baseUrl>/reply`, 15s timeout. -/
def replyFileReq (baseUrl sessionName content : Str) : PostRequest :=
  { url := baseUrl ++ "/reply".data
    session_name := sessionName
    content := content
    ptype := "file".data
    timeoutMs := 15000 }

/-- Model of `wechatPlugin.outbound.sendText`.  `net` is the network oracle
standing for `postJson`; `now` is `Date.now()`.  Returns the outcome
(`Except` error message) and the trace of POSTs issued, in order. -/
def sendText (cfg : OpenClawConfig) (dest text : Str)
    (net : PostRequest → PostResult) (now : Nat) :
    Except Str SendResult × List PostRequest :=
  match baseUrlOf cfg with
  | none => (.error missingBaseUrlMsg, [])
  | some baseUrl =>
    let sessionName := normalizeWechatTarget dest
    let req := replyTextReq baseUrl sessionName text
    let result := net req
    if result.ok then (.ok (sendOk sessionName now), [req])
    else (.error (replyFailMsg result), [req])

/-- Model of `wechatPlugin.outbound.sendMedia`.  `text` is the optional
caption (`String(text ?? "")` then trimmed); `mediaUrl` the media URL. -/
def sendMedia (cfg : OpenClawConfig) (dest : Str) (text : Option Str)
    (mediaUrl : Str) (net : PostRequest → PostResult) (now : Nat) :
    Except Str SendResult × List PostRequest :=
  match baseUrlOf cfg with
  | none => (.error missingBaseUrlMsg, [])
  | some baseUrl =>
    let sessionName := normalizeWechatTarget dest
    let caption := jsTrim (text.getD [])
    let fileReq := replyFileReq baseUrl sessionName mediaUrl
    if caption = [] then
      let rf := net fileReq
      if rf.ok then (.ok (sendOk sessionName now), [fileReq])
      else (.error (fileFailMsg rf), [fileReq])
    else
      let capReq := replyTextReq baseUrl sessionName caption
      let rc := net capReq
      if rc.ok then
        let rf := net fileReq
        if rf.ok then (.ok (sendOk sessionName now), [capReq, fileReq])
        else (.error (fileFailMsg rf), [capReq, fileReq])
      else (.error (captionFailMsg rc), [capReq])

/-! ## Onboarding (`channel.ts`) -/

/-! ## Inbound webhook (`webhook.ts`) -/

/-- A header value as Node delivers it: absent, a single string, or an
array of strings. -/
inductive HeaderValue where
  | absent
  | single (s : Str)
  | multi (ss : List Str)
  deriving DecidableEq

/-- Model of `Array.isArray(h) ? h[0] : h` (with `undefined` as `none`). -/
def headerFirst : HeaderValue → Option Str
  | .absent => none
  | .single s => some s
  | .multi ss => ss.head?

/-- Model of `parseBearerToken` (`webhook.ts`): take the first header value,
reject falsy, trim, require a case-insensitive `bearer ` prefix, and return
the trimmed remainder if non-empty. -/
def parseBearerToken (hv : HeaderValue) : Option Str :=
  match headerFirst hv with
  | none => none
  | some value =>
    if value = [] then none
    else
      let trimmed := jsTrim value
      if trimmed = [] then none
      else if jsStarts (jsToLower trimmed) ("bearer ".data) then
        let token := jsTrim (trimmed.drop 7)
        if token = [] then none else some token
      else none

/-- The inbound webhook request: method, URL, the two token-bearing headers
and the body chunks (each chunk given by its decoded UTF-8 text). -/
structure WebhookRequest where
  method : Option Str := none
  url : Option Str := none
  authorization : HeaderValue := .absent
  xOpenclawToken : HeaderValue := .absent
  chunks : List Str := []
  deriving DecidableEq

/-- Model of `MoltbotInboundPayload` after JSON parsing.  `timestamp` is a
JSON number (finite), modelled as a rational. -/
structure MoltbotInboundPayload where
  message : Option Str := none
  sender : Option Str := none
  timestamp : Option Rat := none
  ptype : Option Str := none
  deriving DecidableEq

/-- Byte size of a chunk: the UTF-8 byte length of its text. -/
def chunkSize (c : Str) : Nat := (c.map Char.utf8Size).sum

/-- Model of the chunk-reading loop of `readJsonBody`: accumulate chunks,
failing as soon as the cumulative byte size exceeds `maxBytes`. -/
def readLoop (chunks : List Str) (size maxBytes : Nat) : Option (List Str) :=
  match chunks with
  | [] => some []
  | c :: rest =>
    let size' := size + chunkSize c
    if size' > maxBytes then none
    else (readLoop rest size' maxBytes).map (c :: ·)

/-- The stringified error the handler reports for an oversized body
(`String(new Error("payload too large"))`). -/
def payloadTooLargeMsg : Str := "Error: payload too large".data

/-- Model of `readJsonBody`: read chunks under the size cap, concatenate and
trim, return `{}` on an empty body, otherwise hand the text to the JSON
parser `parse` (abstract here; it returns the payload or a stringified
parse error). -/
def readJsonBody (chunks : List Str) (maxBytes : Nat)
    (parse : Str → Except Str MoltbotInboundPayload) :
    Except Str MoltbotInboundPayload :=
  match readLoop chunks 0 maxBytes with
  | none => .error payloadTooLargeMsg
  | some parts =>
    let text := jsTrim parts.flatten
    if text = [] then .ok {} else parse text

/-- A JSON response body sent by the handler: `{ok:true}` or
`{ok:false, error:msg}`. -/
inductive RespBody where
  | okTrue
  | err (msg : Str)
  deriving DecidableEq

/-- The arguments the handler passes to the asynchronous `handleInbound`. -/
structure DispatchArgs where
  sender : Str
  text : Str
  timestampMs : Option Int := none
  deriving DecidableEq

/-- The dispatch arguments computed from an accepted payload: trimmed
sender and message, and the optional fractional-seconds timestamp converted
to rounded milliseconds. -/
def dispatchArgsOf (payload : MoltbotInboundPayload) : DispatchArgs :=
  { sender := jsTrim (payload.sender.getD [])
    text := jsTrim (payload.message.getD [])
    timestampMs := payload.timestamp.map (fun q => jsRound (q * 1000)) }

/-- The observable outcome of one webhook request: whether the handler
claimed it (returned `true`), the single HTTP response sent (status and
body), the arguments of the asynchronous `handleInbound` dispatch if one was
started, and the error logged by the `.catch` around that dispatch. -/
structure WebhookResult where
  handled : Bool
  response : Option (Nat × RespBody) := none
  dispatched : Option DispatchArgs := none
  asyncLog : Option Str := none
  deriving DecidableEq

/-- The `return false` outcome: request not handled, nothing sent. -/
def notHandledResult : WebhookResult := { handled := false }

/-- Model of `shouldHandlePath`: trim the URL, take the part before the
first `?`, compare with `/webhook/wechat`. -/
def shouldHandlePath (url : Option Str) : Bool :=
  let value := jsTrim (url.getD [])
  if value = [] then false
  else decide (value.takeWhile (fun c => c ≠ '?') = "/webhook/wechat".data)

/-- Model of the token comparison `!(!token || String(token).trim() !== expectedToken)`. -/
def tokenMatches (t expected : Str) : Bool :=
  decide (t ≠ []) && decide (jsTrim t = expected)

/-- Model of the token gate: the candidate token is the parsed bearer token,
falling back (`??`) to the first `x-openclaw-token` header value; accepted
iff present, truthy and trimming to exactly the expected token. -/
def tokenAccepted (expected : Str) (req : WebhookRequest) : Bool :=
  match (parseBearerToken req.authorization).orElse
      (fun _ => headerFirst req.xOpenclawToken) with
  | none => false
  | some t => tokenMatches t expected

/-- Model of the body phase of `handleWechatWebhookRequest` (after the token
gate): read/parse the body, validate `sender`/`message`, respond 202 and
start the asynchronous dispatch.  `inbound` stands for `handleInbound`,
which can only fail into the logged `.catch`. -/
def webhookBodyPhase (req : WebhookRequest)
    (parse : Str → Except Str MoltbotInboundPayload)
    (inbound : DispatchArgs → Except Str Unit) : WebhookResult :=
  match readJsonBody req.chunks (256 * 1024) parse with
  | .error e => { handled := true, response := some (400, .err e) }
  | .ok payload =>
    let sender := jsTrim (payload.sender.getD [])
    let text := jsTrim (payload.message.getD [])
    if sender = [] ∨ text = [] then
      { handled := true
        response := some (400, .err ("missing sender or message".data)) }
    else
      let args := dispatchArgsOf payload
      { handled := true
        response := some (202, .okTrue)
        dispatched := some args
        asyncLog :=
          match inbound args with
          | .ok _ => none
          | .error e =>
            some ("wechat: inbound processing failed: ".data ++ e) }

/-- Model of `handleWechatWebhookRequest`: method and path gate, token gate,
then the body phase. -/
def handleWechatWebhookRequest (cfg : OpenClawConfig) (req : WebhookRequest)
    (parse : Str → Except Str MoltbotInboundPayload)
    (inbound : DispatchArgs → Except Str Unit) : WebhookResult :=
  if jsToUpper (req.method.getD []) ≠ "POST".data then notHandledResult
  else if ¬ shouldHandlePath req.url then notHandledResult
  else
    let account := resolveWechatAccount cfg (some DEFAULT_ACCOUNT_ID)
    let expectedToken := jsTrim (account.config.inboundToken.getD [])
    if expectedToken = [] then webhookBodyPhase req parse inbound
    else if tokenAccepted expectedToken req then webhookBodyPhase req parse inbound
    else { handled := true, response := some (401, .err ("unauthorized".data)) }

/-! ## Onboarding patches (`channel.ts`) -/

/-- Model of a `Partial<WechatJsonBotAccountConfig>` patch: outer `Option`
is key presence, inner value is the (possibly `undefined`) value.  A present
key overrides the current value under object spread even when its value is
`undefined`. -/
structure WechatPatch where
  enabled : Option (Option Bool) := none
  name : Option (Option Str) := none
  jsonBotBaseUrl : Option (Option Str) := none
  inboundToken : Option (Option Str) := none
  deriving DecidableEq

/-- Model of `applyWechatConfig`:
`{...cfg, channels: {...channels, wechat: {...current, ...patch, enabled: true}}}`. -/
def applyWechatConfig (cfg : OpenClawConfig) (patch : WechatPatch) : OpenClawConfig :=
  let channels := cfg.channels.getD {}
  let current := channels.wechat.getD {}
  { cfg with
    channels := some
      { channels with
        wechat := some
          { enabled := some true
            name := patch.name.getD current.name
            jsonBotBaseUrl := patch.jsonBotBaseUrl.getD current.jsonBotBaseUrl
            inboundToken := patch.inboundToken.getD current.inboundToken
            extra := current.extra } } }

/-- Model of `wechatOnboardingAdapter.disable`:
`{...cfg, channels: {...channels, wechat: {...current, enabled: false}}}`. -/
def disableWechat (cfg : OpenClawConfig) : OpenClawConfig :=
  let channels := cfg.channels.getD {}
  let current := channels.wechat.getD {}
  { cfg with
    channels := some
      { channels with
        wechat := some { current with enabled := some false } } }

/-! ## Shared lemmas about the string model -/

/-- Whitespace characters are fixed by ASCII lowercasing. -/
lemma ws_toLower {c : Char} (h : c.isWhitespace) : c.toLower = c := by
  simp only [Char.isWhitespace, Bool.or_eq_true, decide_eq_true_eq] at h
  rcases h with ((rfl | rfl) | rfl) | rfl <;> decide

/-- Trimming an all-whitespace string gives the empty string. -/
lemma jsTrim_eq_nil_of_ws {w : Str} (hw : ∀ c ∈ w, c.isWhitespace) :
    jsTrim w = [] := by
  unfold jsTrim
  rw [List.dropWhile_eq_nil_iff.mpr hw]
  simp [List.rdropWhile]

/-- Trailing whitespace is removed by `rdropWhile isWhitespace`. -/
lemma rdropWhile_append_ws {s w : Str} (hw : ∀ c ∈ w, c.isWhitespace) :
    List.rdropWhile Char.isWhitespace (s ++ w)
      = List.rdropWhile Char.isWhitespace s := by
  unfold List.rdropWhile
  rw [List.reverse_append, List.dropWhile_append_of_pos]
  intro a ha
  exact hw a (List.mem_reverse.mp ha)

/-- `rdropWhile` distributes over an append whose right part does not vanish. -/
lemma rdropWhile_append_left {p : Char → Bool} {a b : Str}
    (h : List.rdropWhile p b ≠ []) :
    List.rdropWhile p (a ++ b) = a ++ List.rdropWhile p b := by
  have hb : ¬ (List.dropWhile p b.reverse).isEmpty := by
    intro hemp
    exact h (by simp [List.rdropWhile, List.isEmpty_iff.mp hemp])
  unfold List.rdropWhile
  rw [List.reverse_append, List.dropWhile_append, if_neg hb]
  simp [List.rdropWhile]

/-- Left trim and right trim of whitespace commute. -/
lemma dropWhile_rdropWhile_comm (s : Str) :
    List.dropWhile Char.isWhitespace (List.rdropWhile Char.isWhitespace s)
      = List.rdropWhile Char.isWhitespace (List.dropWhile Char.isWhitespace s) := by
  cases hd : List.dropWhile Char.isWhitespace s with
  | nil =>
    have hall : ∀ c ∈ s, Char.isWhitespace c := List.dropWhile_eq_nil_iff.mp hd
    rw [List.rdropWhile_eq_nil_iff.mpr hall]
    simp
  | cons a u =>
    have hpa : Char.isWhitespace a = false := by
      have h0 := List.head?_dropWhile_not Char.isWhitespace s
      rw [hd] at h0
      simpa using h0
    have hs : List.takeWhile Char.isWhitespace s ++ (a :: u) = s := by
      rw [← hd]
      exact List.takeWhile_append_dropWhile _ _
    have hne : List.rdropWhile Char.isWhitespace (a :: u) ≠ [] := by
      intro hnil
      have := List.rdropWhile_eq_nil_iff.mp hnil a (by simp)
      simp [hpa] at this
    obtain ⟨t, ht⟩ := List.rdropWhile_prefix Char.isWhitespace (a :: u)
    cases hrd : List.rdropWhile Char.isWhitespace (a :: u) with
    | nil => exact absurd hrd hne
    | cons b v =>
      have hba : b = a := by
        rw [hrd] at ht
        injection ht
      have h1 : List.rdropWhile Char.isWhitespace s
          = List.takeWhile Char.isWhitespace s ++ (b :: v) := by
        conv_lhs => rw [← hs]
        rw [rdropWhile_append_left hne, hrd]
      rw [h1]
      rw [@List.dropWhile_append_of_pos _ Char.isWhitespace
        (List.takeWhile Char.isWhitespace s) (b :: v)
        (fun x hx => List.mem_takeWhile_imp hx)]
      exact List.dropWhile_cons_of_neg (by simp [hba, hpa])

/-- Trimming is unchanged by first removing trailing whitespace. -/
lemma jsTrim_rdropWhile (s : Str) :
    jsTrim (List.rdropWhile Char.isWhitespace s) = jsTrim s := by
  unfold jsTrim
  rw [dropWhile_rdropWhile_comm, List.rdropWhile_idempotent]

/-- Trimming a string sandwiched in whitespace around a core whose first and
last characters are not whitespace keeps the core and right-trims the rest. -/
lemma jsTrim_sandwich {w1 w2 pfx s : Str}
    (hw1 : ∀ c ∈ w1, c.isWhitespace) (hw2 : ∀ c ∈ w2, c.isWhitespace)
    (hne : pfx ≠ []) (hh : (pfx.head hne).isWhitespace = false)
    (hl : (pfx.getLast hne).isWhitespace = false) :
    jsTrim (w1 ++ pfx ++ s ++ w2)
      = pfx ++ List.rdropWhile Char.isWhitespace s := by
  cases pfx with
  | nil => exact absurd rfl hne
  | cons a q =>
    have hha : Char.isWhitespace a = false := by simpa using hh
    unfold jsTrim
    have e1 : w1 ++ (a :: q) ++ s ++ w2 = w1 ++ ((a :: q) ++ (s ++ w2)) := by
      simp [List.append_assoc]
    rw [e1, List.dropWhile_append_of_pos hw1]
    have hdw : List.dropWhile Char.isWhitespace ((a :: q) ++ (s ++ w2))
        = (a :: q) ++ (s ++ w2) := by
      rw [List.cons_append]
      exact List.dropWhile_cons_of_neg (by simp [hha])
    rw [hdw]
    have e2 : (a :: q) ++ (s ++ w2) = ((a :: q) ++ s) ++ w2 := by
      simp [List.append_assoc]
    rw [e2, rdropWhile_append_ws hw2]
    by_cases hrs : List.rdropWhile Char.isWhitespace s = []
    · have hws : ∀ c ∈ s, Char.isWhitespace c := List.rdropWhile_eq_nil_iff.mp hrs
      rw [rdropWhile_append_ws hws, hrs, List.append_nil]
      exact List.rdropWhile_eq_self_iff.mpr (fun h => by simp [hl])
    · exact rdropWhile_append_left hrs

/-- The literal `wechat:` prefix is never a prefix of `wx:` followed by
anything. -/
lemma not_wechat_isPrefixOf (y : Str) :
    ("wechat:".data).isPrefixOf ("wx:".data ++ y) = false := by
  rw [Bool.eq_false_iff]
  intro h
  rw [List.isPrefixOf_iff_prefix] at h
  obtain ⟨r, hr⟩ := h
  have e7 : ("wechat:".data : Str) = ['w', 'e', 'c', 'h', 'a', 't', ':'] := rfl
  have e3 : ("wx:".data : Str) = ['w', 'x', ':'] := rfl
  rw [e7, e3] at hr
  simp only [List.cons_append, List.nil_append, List.cons.injEq] at hr
  exact absurd hr.2.1 (by decide)

/-- C6: for every string `s`, every prefix `p` in `{wechat:, wx:}` in any
letter case, and any surrounding whitespace, `normalizeWechatTarget`
applied to `whitespace ++ p ++ s ++ whitespace` equals `trim s`. -/
theorem C6_prefixed_target_normalization (s pfx w1 w2 : Str)
    (hp : jsToLower pfx = "wechat:".data ∨ jsToLower pfx = "wx:".data)
    (h1 : ∀ c ∈ w1, c.isWhitespace) (h2 : ∀ c ∈ w2, c.isWhitespace) :
    normalizeWechatTarget (w1 ++ pfx ++ s ++ w2) = jsTrim s := by
  simp only [jsToLower] at hp
  have hne : pfx ≠ [] := by
    intro h
    subst h
    rcases hp with hp | hp <;> simp at hp
  have hall : ∀ c ∈ pfx, c.isWhitespace = false := by
    intro c hc
    by_contra hcw
    rw [Bool.not_eq_false] at hcw
    have hfix := ws_toLower hcw
    have hmem : Char.toLower c ∈ pfx.map Char.toLower := List.mem_map_of_mem _ hc
    rw [hfix] at hmem
    have hcs := hcw
    simp only [Char.isWhitespace, Bool.or_eq_true, decide_eq_true_eq] at hcs
    rcases hp with hp | hp <;> rw [hp] at hmem <;>
      rcases hcs with ((rfl | rfl) | rfl) | rfl <;> exact absurd hmem (by decide)
  have hsand := @jsTrim_sandwich w1 w2 pfx s h1 h2 hne
    (hall _ (List.head_mem hne)) (hall _ (List.getLast_mem hne))
  simp only [normalizeWechatTarget]
  rw [hsand]
  rcases hp with hp | hp
  · have hlen : pfx.length = 7 := by
      have h := congrArg List.length hp
      simp only [List.length_map] at h
      exact h.trans rfl
    have hlow : jsToLower (pfx ++ List.rdropWhile Char.isWhitespace s)
        = "wechat:".data ++ jsToLower (List.rdropWhile Char.isWhitespace s) := by
      simp only [jsToLower, List.map_append, hp]
    have hstart : jsStarts
        (jsToLower (pfx ++ List.rdropWhile Char.isWhitespace s))
        ("wechat:".data) = true := by
      rw [hlow]
      simp [jsStarts]
    rw [if_pos hstart, List.drop_left' hlen]
    exact jsTrim_rdropWhile s
  · have hlen : pfx.length = 3 := by
      have h := congrArg List.length hp
      simp only [List.length_map] at h
      exact h.trans rfl
    have hlow : jsToLower (pfx ++ List.rdropWhile Char.isWhitespace s)
        = "wx:".data ++ jsToLower (List.rdropWhile Char.isWhitespace s) := by
      simp only [jsToLower, List.map_append, hp]
    have hno : jsStarts
        (jsToLower (pfx ++ List.rdropWhile Char.isWhitespace s))
        ("wechat:".data) = false := by
      rw [hlow]
      exact not_wechat_isPrefixOf _
    have hstart : jsStarts
        (jsToLower (pfx ++ List.rdropWhile Char.isWhitespace s))
        ("wx:".data) = true := by
      rw [hlow]
      simp [jsStarts]
    rw [if_neg (by simp [hno]), if_pos hstart, List.drop_left' hlen]
    exact jsTrim_rdropWhile s

/-- Witness for C6: `  Wx: Bob  ` normalizes to `Bob`, the trim of the
unprefixed remainder ` Bob`. -/
theorem C6_prefixed_target_normalization_witness :
    normalizeWechatTarget "  Wx: Bob  ".data = "Bob".data := by
  have h := C6_prefixed_target_normalization " Bob".data "Wx:".data
    "  ".data "  ".data (Or.inr (by decide)) (by decide) (by decide)
  rw [show ("  ".data ++ "Wx:".data ++ " Bob".data ++ "  ".data : Str)
    = "  Wx: Bob  ".data from by decide] at h
  rw [h]
  decide

/-- The expected token computed by the handler for a configuration. -/
lemma resolveWechatAccount_config (cfg : OpenClawConfig) (aid : Option Str) :
    (resolveWechatAccount cfg aid).config = resolveWechatConfig cfg := rfl

/-- Under a passing method, path and token gate, the handler runs the body
phase, whatever the inbound pipeline does. -/
lemma handle_eq_bodyPhase (cfg : OpenClawConfig) (req : WebhookRequest)
    (parse : Str → Except Str MoltbotInboundPayload)
    (hm : jsToUpper (req.method.getD []) = "POST".data)
    (hp : shouldHandlePath req.url = true)
    (htok : jsTrim ((resolveWechatAccount cfg
          (some DEFAULT_ACCOUNT_ID)).config.inboundToken.getD []) = []
        ∨ tokenAccepted (jsTrim ((resolveWechatAccount cfg
          (some DEFAULT_ACCOUNT_ID)).config.inboundToken.getD [])) req = true) :
    ∀ g, handleWechatWebhookRequest cfg req parse g = webhookBodyPhase req parse g := by
  intro g
  unfold handleWechatWebhookRequest
  rw [if_neg (not_not_intro hm), if_neg (not_not_intro hp)]
  rcases htok with h | h
  · rw [if_pos h]
  · by_cases hexp : jsTrim ((resolveWechatAccount cfg
        (some DEFAULT_ACCOUNT_ID)).config.inboundToken.getD []) = []
    · rw [if_pos hexp]
    · rw [if_neg hexp, if_pos h]

/-- The body phase never answers 401 unauthorized. -/
lemma bodyPhase_response_ne_401 (req : WebhookRequest)
    (parse : Str → Except Str MoltbotInboundPayload)
    (g : DispatchArgs → Except Str Unit) :
    (webhookBodyPhase req parse g).response
      ≠ some (401, RespBody.err ("unauthorized".data)) := by
  unfold webhookBodyPhase
  cases hE : readJsonBody req.chunks (256 * 1024) parse with
  | error e => simp
  | ok payload =>
    by_cases h : jsTrim (payload.sender.getD []) = []
        ∨ jsTrim (payload.message.getD []) = []
    · simp [h]
    · simp [h]

/-- C1: a POST to `/webhook/wechat` with a configured non-empty inbound
token and no matching bearer or `X-OpenClaw-Token` credential is answered
401 `{ok:false,error:"unauthorized"}`, the handler returns `true`, and no
inbound dispatch happens. -/
theorem C1_unauthorized_post_rejected (cfg : OpenClawConfig)
    (req : WebhookRequest) (parse : Str → Except Str MoltbotInboundPayload)
    (inbound : DispatchArgs → Except Str Unit)
    (hm : jsToUpper (req.method.getD []) = "POST".data)
    (hp : shouldHandlePath req.url = true)
    (ht : jsTrim ((resolveWechatAccount cfg
        (some DEFAULT_ACCOUNT_ID)).config.inboundToken.getD []) ≠ [])
    (hb : ∀ t, parseBearerToken req.authorization = some t →
      jsTrim t ≠ jsTrim ((resolveWechatAccount cfg
        (some DEFAULT_ACCOUNT_ID)).config.inboundToken.getD []))
    (hx : ∀ t, headerFirst req.xOpenclawToken = some t →
      jsTrim t ≠ jsTrim ((resolveWechatAccount cfg
        (some DEFAULT_ACCOUNT_ID)).config.inboundToken.getD [])) :
    handleWechatWebhookRequest cfg req parse inbound
      = { handled := true
          response := some (401, .err ("unauthorized".data))
          dispatched := none
          asyncLog := none } := by
  have hta : tokenAccepted (jsTrim ((resolveWechatAccount cfg
      (some DEFAULT_ACCOUNT_ID)).config.inboundToken.getD [])) req = false := by
    unfold tokenAccepted
    cases hbt : parseBearerToken req.authorization with
    | some t => simp [Option.orElse, tokenMatches, hb t hbt]
    | none =>
      cases hxf : headerFirst req.xOpenclawToken with
      | some t => simp [Option.orElse, tokenMatches, hx t hxf]
      | none => simp [Option.orElse]
  unfold handleWechatWebhookRequest
  rw [if_neg (not_not_intro hm), if_neg (not_not_intro hp), if_neg ht,
    if_neg (by simp [hta])]

/-- Witness for C1: a concrete request with a wrong `X-OpenClaw-Token` and
no bearer token against a configuration with inbound token `secret`. -/
theorem C1_unauthorized_post_rejected_witness :
    handleWechatWebhookRequest
      { channels := some { wechat := some { inboundToken := some "secret".data } } }
      { method := some "POST".data
        url := some "/webhook/wechat".data
        authorization := .absent
        xOpenclawToken := .single "wrong".data }
      (fun _ => .ok {}) (fun _ => .ok ())
      = { handled := true
          response := some (401, .err ("unauthorized".data))
          dispatched := none
          asyncLog := none } := by
  apply C1_unauthorized_post_rejected
  · decide
  · decide
  · decide
  · intro t h
    exact Option.noConfusion h
  · intro t h
    simp only [headerFirst, Option.some.injEq] at h
    subst h
    decide

/-- C2: a webhook POST that passes the token check and carries a non-empty
trimmed sender and message is answered 202 `{ok:true}` regardless of what
the asynchronous inbound pipeline does; the dispatch receives the trimmed
sender, trimmed message and rounded millisecond timestamp, and a failing
pipeline is only logged, leaving the response untouched. -/
theorem C2_ack_then_async_dispatch (cfg : OpenClawConfig)
    (req : WebhookRequest) (parse : Str → Except Str MoltbotInboundPayload)
    (inbound : DispatchArgs → Except Str Unit) (payload : MoltbotInboundPayload)
    (hm : jsToUpper (req.method.getD []) = "POST".data)
    (hp : shouldHandlePath req.url = true)
    (htok : jsTrim ((resolveWechatAccount cfg
          (some DEFAULT_ACCOUNT_ID)).config.inboundToken.getD []) = []
        ∨ tokenAccepted (jsTrim ((resolveWechatAccount cfg
          (some DEFAULT_ACCOUNT_ID)).config.inboundToken.getD [])) req = true)
    (hread : readJsonBody req.chunks (256 * 1024) parse = .ok payload)
    (hs : jsTrim (payload.sender.getD []) ≠ [])
    (hmsg : jsTrim (payload.message.getD []) ≠ []) :
    (∀ g, (handleWechatWebhookRequest cfg req parse g).response
        = some (202, .okTrue))
    ∧ (handleWechatWebhookRequest cfg req parse inbound).dispatched
        = some (dispatchArgsOf payload)
    ∧ ∀ e, inbound (dispatchArgsOf payload) = .error e →
        (handleWechatWebhookRequest cfg req parse inbound).asyncLog
          = some ("wechat: inbound processing failed: ".data ++ e) := by
  have hb := handle_eq_bodyPhase cfg req parse hm hp htok
  have hbp : ∀ g, webhookBodyPhase req parse g
      = { handled := true
          response := some (202, .okTrue)
          dispatched := some (dispatchArgsOf payload)
          asyncLog :=
            match g (dispatchArgsOf payload) with
            | .ok _ => none
            | .error e =>
              some ("wechat: inbound processing failed: ".data ++ e) } := by
    intro g
    unfold webhookBodyPhase
    rw [hread]
    simp [hs, hmsg]
  refine ⟨fun g => by rw [hb g, hbp g], by rw [hb inbound, hbp inbound], ?_⟩
  intro e he
  rw [hb inbound, hbp inbound]
  simp [he]

/-- Witness for C2: a concrete acknowledged request whose inbound pipeline
fails with `boom`. -/
theorem C2_ack_then_async_dispatch_witness :
    (handleWechatWebhookRequest {}
      { method := some "POST".data
        url := some "/webhook/wechat".data
        chunks := ["x".data] }
      (fun _ => .ok { sender := some " Alice".data, message := some "Hi ".data })
      (fun _ => .error "boom".data)).response = some (202, .okTrue)
    ∧ (handleWechatWebhookRequest {}
      { method := some "POST".data
        url := some "/webhook/wechat".data
        chunks := ["x".data] }
      (fun _ => .ok { sender := some " Alice".data, message := some "Hi ".data })
      (fun _ => .error "boom".data)).dispatched
        = some { sender := "Alice".data, text := "Hi".data, timestampMs := none }
    ∧ (handleWechatWebhookRequest {}
      { method := some "POST".data
        url := some "/webhook/wechat".data
        chunks := ["x".data] }
      (fun _ => .ok { sender := some " Alice".data, message := some "Hi ".data })
      (fun _ => .error "boom".data)).asyncLog
        = some ("wechat: inbound processing failed: boom".data) := by
  obtain ⟨h1, h2, h3⟩ := C2_ack_then_async_dispatch {}
    { method := some "POST".data
      url := some "/webhook/wechat".data
      chunks := ["x".data] }
    (fun _ => .ok { sender := some " Alice".data, message := some "Hi ".data })
    (fun _ => .error "boom".data)
    { sender := some " Alice".data, message := some "Hi ".data }
    (by decide) (by decide) (Or.inl (by decide)) rfl (by decide) (by decide)
  refine ⟨h1 _, ?_, ?_⟩
  · rw [h2]
    decide
  · exact h3 "boom".data rfl

/-- C3: a webhook POST that passes the token check and whose body parses
but yields an empty trimmed sender or message is answered 400
`{ok:false,error:"missing sender or message"}` with no dispatch. -/
theorem C3_missing_fields_rejected (cfg : OpenClawConfig)
    (req : WebhookRequest) (parse : Str → Except Str MoltbotInboundPayload)
    (inbound : DispatchArgs → Except Str Unit) (payload : MoltbotInboundPayload)
    (hm : jsToUpper (req.method.getD []) = "POST".data)
    (hp : shouldHandlePath req.url = true)
    (htok : jsTrim ((resolveWechatAccount cfg
          (some DEFAULT_ACCOUNT_ID)).config.inboundToken.getD []) = []
        ∨ tokenAccepted (jsTrim ((resolveWechatAccount cfg
          (some DEFAULT_ACCOUNT_ID)).config.inboundToken.getD [])) req = true)
    (hread : readJsonBody req.chunks (256 * 1024) parse = .ok payload)
    (hempty : jsTrim (payload.sender.getD []) = []
        ∨ jsTrim (payload.message.getD []) = []) :
    handleWechatWebhookRequest cfg req parse inbound
      = { handled := true
          response := some (400, .err ("missing sender or message".data))
          dispatched := none
          asyncLog := none } := by
  rw [handle_eq_bodyPhase cfg req parse hm hp htok inbound]
  unfold webhookBodyPhase
  rw [hread]
  simp [hempty]

/-- Witness for C3: an empty body parses to the empty payload, whose sender
is empty. -/
theorem C3_missing_fields_rejected_witness :
    handleWechatWebhookRequest {}
      { method := some "POST".data
        url := some "/webhook/wechat".data
        chunks := [] }
      (fun _ => .ok {}) (fun _ => .ok ())
      = { handled := true
          response := some (400, .err ("missing sender or message".data))
          dispatched := none
          asyncLog := none } :=
  C3_missing_fields_rejected {}
    { method := some "POST".data
      url := some "/webhook/wechat".data
      chunks := [] }
    (fun _ => .ok {}) (fun _ => .ok ()) {}
    (by decide) (by decide) (Or.inl (by decide)) rfl (Or.inl (by decide))

/-- The reading loop fails as soon as the cumulative size passes the cap. -/
lemma readLoop_eq_none {chunks : List Str} {size maxBytes : Nat}
    (hle : size ≤ maxBytes)
    (hgt : maxBytes < size + (chunks.map chunkSize).sum) :
    readLoop chunks size maxBytes = none := by
  induction chunks generalizing size with
  | nil =>
    simp only [List.map_nil, List.sum_nil, Nat.add_zero] at hgt
    exact absurd hgt (Nat.not_lt.mpr hle)
  | cons c rest ih =>
    unfold readLoop
    by_cases hc : size + chunkSize c > maxBytes
    · rw [if_pos hc]
    · rw [if_neg hc]
      have : readLoop rest (size + chunkSize c) maxBytes = none := by
        apply ih (Nat.le_of_not_lt hc)
        simp only [List.map_cons, List.sum_cons] at hgt
        omega
      rw [this]
      rfl

/-- A body larger than the cap fails with `payload too large` no matter
which JSON parser would have been used afterwards. -/
lemma readJsonBody_tooLarge (chunks : List Str)
    (h : 256 * 1024 < (chunks.map chunkSize).sum)
    (parse : Str → Except Str MoltbotInboundPayload) :
    readJsonBody chunks (256 * 1024) parse = .error payloadTooLargeMsg := by
  unfold readJsonBody
  rw [readLoop_eq_none (Nat.zero_le _) (by simpa using h)]

/-- C7: a webhook POST passing the token check whose body exceeds 256 KiB
fails in the body-reading stage before any JSON parsing (the outcome is the
same for every parser), and the handler answers 400 with the error text. -/
theorem C7_oversized_body_rejected (cfg : OpenClawConfig)
    (req : WebhookRequest) (parse : Str → Except Str MoltbotInboundPayload)
    (inbound : DispatchArgs → Except Str Unit)
    (hm : jsToUpper (req.method.getD []) = "POST".data)
    (hp : shouldHandlePath req.url = true)
    (htok : jsTrim ((resolveWechatAccount cfg
          (some DEFAULT_ACCOUNT_ID)).config.inboundToken.getD []) = []
        ∨ tokenAccepted (jsTrim ((resolveWechatAccount cfg
          (some DEFAULT_ACCOUNT_ID)).config.inboundToken.getD [])) req = true)
    (hsize : 256 * 1024 < (req.chunks.map chunkSize).sum) :
    (∀ p2 : Str → Except Str MoltbotInboundPayload,
        readJsonBody req.chunks (256 * 1024) p2 = .error payloadTooLargeMsg)
    ∧ handleWechatWebhookRequest cfg req parse inbound
      = { handled := true
          response := some (400, .err payloadTooLargeMsg)
          dispatched := none
          asyncLog := none } := by
  refine ⟨fun p2 => readJsonBody_tooLarge _ hsize p2, ?_⟩
  rw [handle_eq_bodyPhase cfg req parse hm hp htok inbound]
  unfold webhookBodyPhase
  rw [readJsonBody_tooLarge _ hsize parse]

/-- The byte size of a chunk of `n` letters `a` is `n`. -/
lemma chunkSize_replicate_a (n : Nat) : chunkSize (List.replicate n 'a') = n := by
  induction n with
  | zero => rfl
  | succ k ih =>
    rw [List.replicate_succ]
    unfold chunkSize at ih ⊢
    rw [List.map_cons, List.sum_cons, ih,
      show Char.utf8Size 'a' = 1 from rfl]
    omega

/-- The total size of a single-chunk body is that chunk's size. -/
lemma sum_single_chunk (c : Str) :
    (([c] : List Str).map chunkSize).sum = chunkSize c := by
  simp

/-- Witness for C7: a single 262145-byte chunk of `a` characters. -/
theorem C7_oversized_body_rejected_witness :
    readJsonBody [List.replicate 262145 'a'] (256 * 1024) (fun _ => .ok {})
      = .error payloadTooLargeMsg
    ∧ handleWechatWebhookRequest {}
      { method := some "POST".data
        url := some "/webhook/wechat".data
        chunks := [List.replicate 262145 'a'] }
      (fun _ => .ok {}) (fun _ => .ok ())
      = { handled := true
          response := some (400, .err payloadTooLargeMsg)
          dispatched := none
          asyncLog := none } := by
  have hsz : ((([List.replicate 262145 'a'] : List Str)).map chunkSize).sum
      = 262145 := by
    rw [sum_single_chunk, chunkSize_replicate_a]
  obtain ⟨h1, h2⟩ := C7_oversized_body_rejected {}
    { method := some "POST".data
      url := some "/webhook/wechat".data
      chunks := [List.replicate 262145 'a'] }
    (fun _ => .ok {}) (fun _ => .ok ())
    (by decide) (by decide) (Or.inl (by decide)) (by rw [hsz]; omega)
  exact ⟨h1 _, h2⟩

/-- C9: a whitespace-only configured inbound token disables authentication:
the handler behaves exactly as with no configured token and in particular
never answers 401. -/
theorem C9_whitespace_token_disables_auth (cfg cfg2 : OpenClawConfig)
    (req : WebhookRequest) (parse : Str → Except Str MoltbotInboundPayload)
    (inbound : DispatchArgs → Except Str Unit) (w : Str)
    (ht : (resolveWechatConfig cfg).inboundToken = some w)
    (hw : ∀ c ∈ w, c.isWhitespace)
    (h2 : resolveWechatConfig cfg2
        = { resolveWechatConfig cfg with inboundToken := none }) :
    handleWechatWebhookRequest cfg req parse inbound
      = handleWechatWebhookRequest cfg2 req parse inbound
    ∧ (handleWechatWebhookRequest cfg req parse inbound).response
        ≠ some (401, RespBody.err ("unauthorized".data)) := by
  have e1 : jsTrim ((resolveWechatAccount cfg
      (some DEFAULT_ACCOUNT_ID)).config.inboundToken.getD []) = [] := by
    rw [resolveWechatAccount_config, ht]
    exact jsTrim_eq_nil_of_ws hw
  have e2 : jsTrim ((resolveWechatAccount cfg2
      (some DEFAULT_ACCOUNT_ID)).config.inboundToken.getD []) = [] := by
    rw [resolveWechatAccount_config, h2]
    rfl
  constructor
  · unfold handleWechatWebhookRequest
    by_cases hm : jsToUpper (req.method.getD []) ≠ "POST".data
    · rw [if_pos hm, if_pos hm]
    · rw [if_neg hm, if_neg hm]
      by_cases hp : ¬ shouldHandlePath req.url
      · rw [if_pos hp, if_pos hp]
      · rw [if_neg hp, if_neg hp, if_pos e1, if_pos e2]
  · unfold handleWechatWebhookRequest
    by_cases hm : jsToUpper (req.method.getD []) ≠ "POST".data
    · rw [if_pos hm]
      simp [notHandledResult]
    · rw [if_neg hm]
      by_cases hp : ¬ shouldHandlePath req.url
      · rw [if_pos hp]
        simp [notHandledResult]
      · rw [if_neg hp, if_pos e1]
        exact bodyPhase_response_ne_401 req parse inbound

/-- Witness for C9: inbound token of two spaces, a request with a wrong
token header, compared against the token-free configuration. -/
theorem C9_whitespace_token_disables_auth_witness :
    handleWechatWebhookRequest
      { channels := some { wechat := some { inboundToken := some "  ".data } } }
      { method := some "POST".data
        url := some "/webhook/wechat".data
        xOpenclawToken := .single "wrong".data }
      (fun _ => .ok {}) (fun _ => .ok ())
      = handleWechatWebhookRequest
      { channels := some { wechat := some { inboundToken := none } } }
      { method := some "POST".data
        url := some "/webhook/wechat".data
        xOpenclawToken := .single "wrong".data }
      (fun _ => .ok {}) (fun _ => .ok ())
    ∧ (handleWechatWebhookRequest
      { channels := some { wechat := some { inboundToken := some "  ".data } } }
      { method := some "POST".data
        url := some "/webhook/wechat".data
        xOpenclawToken := .single "wrong".data }
      (fun _ => .ok {}) (fun _ => .ok ())).response
        ≠ some (401, RespBody.err ("unauthorized".data)) :=
  C9_whitespace_token_disables_auth
    { channels := some { wechat := some { inboundToken := some "  ".data } } }
    { channels := some { wechat := some { inboundToken := none } } }
    { method := some "POST".data
      url := some "/webhook/wechat".data
      xOpenclawToken := .single "wrong".data }
    (fun _ => .ok {}) (fun _ => .ok ()) "  ".data
    (by decide) (by decide) (by decide)

/-- C4: `sendMedia` with a configured base URL and a non-empty trimmed
caption first issues exactly the caption POST (`type:"text"`, 5s timeout);
if that POST is not ok it throws the caption error and never issues the
file POST; otherwise it issues exactly one file POST (`type:"file"`, the
media URL as content, 15s timeout) and throws the file error if that POST
is not ok. -/
theorem C4_sendMedia_caption_gate (cfg : OpenClawConfig) (dest : Str)
    (text : Option Str) (mediaUrl : Str) (net : PostRequest → PostResult)
    (now : Nat) (b : Str)
    (hb : baseUrlOf cfg = some b)
    (hc : jsTrim (text.getD []) ≠ []) :
    ((net (replyTextReq b (normalizeWechatTarget dest)
        (jsTrim (text.getD [])))).ok = false →
      sendMedia cfg dest text mediaUrl net now
        = (.error (captionFailMsg (net (replyTextReq b
            (normalizeWechatTarget dest) (jsTrim (text.getD []))))),
           [replyTextReq b (normalizeWechatTarget dest) (jsTrim (text.getD []))]))
    ∧ ((net (replyTextReq b (normalizeWechatTarget dest)
        (jsTrim (text.getD [])))).ok = true →
      (sendMedia cfg dest text mediaUrl net now).2
        = [replyTextReq b (normalizeWechatTarget dest) (jsTrim (text.getD [])),
           replyFileReq b (normalizeWechatTarget dest) mediaUrl]
      ∧ ((net (replyFileReq b (normalizeWechatTarget dest) mediaUrl)).ok = false →
          (sendMedia cfg dest text mediaUrl net now).1
            = .error (fileFailMsg (net (replyFileReq b
                (normalizeWechatTarget dest) mediaUrl))))
      ∧ ((net (replyFileReq b (normalizeWechatTarget dest) mediaUrl)).ok = true →
          (sendMedia cfg dest text mediaUrl net now).1
            = .ok (sendOk (normalizeWechatTarget dest) now))) := by
  constructor
  · intro hcap
    simp only [sendMedia, hb]
    simp [if_neg hc, hcap]
  · intro hcap
    refine ⟨?_, ?_, ?_⟩
    · simp only [sendMedia, hb]
      by_cases hf : (net (replyFileReq b (normalizeWechatTarget dest) mediaUrl)).ok = true
      · simp [if_neg hc, hcap, hf]
      · simp [if_neg hc, hcap, hf]
    · intro hf
      simp only [sendMedia, hb]
      simp [if_neg hc, hcap, hf]
    · intro hf
      simp only [sendMedia, hb]
      simp [if_neg hc, hcap, hf]

/-- Witness for C4: caption POST succeeds, file POST fails with 500. -/
theorem C4_sendMedia_caption_gate_witness :
    (sendMedia
      { channels := some { wechat := some { jsonBotBaseUrl := some "http://h".data } } }
      "wx:Bob".data (some " cap ".data) "http://m/x.png".data
      (fun r => if r.ptype = "file".data
        then { ok := false, status := some 500, error := some "oops".data }
        else { ok := true, status := some 200 }) 7).2
      = [replyTextReq "http://h".data "Bob".data "cap".data,
         replyFileReq "http://h".data "Bob".data "http://m/x.png".data]
    ∧ (sendMedia
      { channels := some { wechat := some { jsonBotBaseUrl := some "http://h".data } } }
      "wx:Bob".data (some " cap ".data) "http://m/x.png".data
      (fun r => if r.ptype = "file".data
        then { ok := false, status := some 500, error := some "oops".data }
        else { ok := true, status := some 200 }) 7).1
      = .error (fileFailMsg { ok := false, status := some 500, error := some "oops".data }) := by
  obtain ⟨h1, h2⟩ := C4_sendMedia_caption_gate
    { channels := some { wechat := some { jsonBotBaseUrl := some "http://h".data } } }
    "wx:Bob".data (some " cap ".data) "http://m/x.png".data
    (fun r => if r.ptype = "file".data
      then { ok := false, status := some 500, error := some "oops".data }
      else { ok := true, status := some 200 }) 7 "http://h".data
    (by decide) (by decide)
  obtain ⟨ht, hf, -⟩ := h2 (by decide)
  constructor
  · rw [ht]
    decide
  · rw [hf (by decide)]
    rfl

/-- C5: with `jsonBotBaseUrl` absent or trimming to the empty string, both
`sendText` and `sendMedia` fail with the error naming the missing
configuration key before issuing any POST. -/
theorem C5_missing_base_url_fails_first (cfg : OpenClawConfig)
    (h : jsTrim ((resolveWechatConfig cfg).jsonBotBaseUrl.getD []) = []) :
    ∀ (dest text : Str) (caption : Option Str) (mediaUrl : Str)
      (net : PostRequest → PostResult) (now : Nat),
      sendText cfg dest text net now = (.error missingBaseUrlMsg, [])
      ∧ sendMedia cfg dest caption mediaUrl net now
        = (.error missingBaseUrlMsg, []) := by
  have hb : baseUrlOf cfg = none := by
    simp [baseUrlOf, normalizeBaseUrl, resolveWechatAccount_config, h]
  intro dest text caption mediaUrl net now
  constructor
  · simp [sendText, hb]
  · simp [sendMedia, hb]

/-- Witness for C5: a whitespace-only configured base URL. -/
theorem C5_missing_base_url_fails_first_witness :
    sendText
      { channels := some { wechat := some { jsonBotBaseUrl := some "   ".data } } }
      "Bob".data "hello".data (fun _ => { ok := true }) 7
      = (.error missingBaseUrlMsg, [])
    ∧ sendMedia
      { channels := some { wechat := some { jsonBotBaseUrl := some "   ".data } } }
      "Bob".data none "http://m/x".data (fun _ => { ok := true }) 7
      = (.error missingBaseUrlMsg, []) :=
  C5_missing_base_url_fails_first
    { channels := some { wechat := some { jsonBotBaseUrl := some "   ".data } } }
    (by decide) "Bob".data "hello".data none "http://m/x".data
    (fun _ => { ok := true }) 7

/-- C8: `sendText` with a configured base URL issues exactly one POST to
`<baseUrl>/reply` (trailing slashes stripped) with payload
`{session_name: normalized target, content: text, type:"text"}`; on ok it
returns `wechat:<now>` as message id and the normalized target as chat id,
and on a non-ok result it throws the error carrying status and error
text. -/
theorem C8_sendText_contract (cfg : OpenClawConfig) (dest text : Str)
    (net : PostRequest → PostResult) (now : Nat) (b : Str)
    (hb : baseUrlOf cfg = some b) :
    (sendText cfg dest text net now).2
      = [replyTextReq b (normalizeWechatTarget dest) text]
    ∧ ((net (replyTextReq b (normalizeWechatTarget dest) text)).ok = true →
        (sendText cfg dest text net now).1
          = .ok { channel := "wechat".data
                  messageId := "wechat:".data ++ natStr now
                  chatId := normalizeWechatTarget dest })
    ∧ ((net (replyTextReq b (normalizeWechatTarget dest) text)).ok = false →
        (sendText cfg dest text net now).1
          = .error (replyFailMsg (net (replyTextReq b
              (normalizeWechatTarget dest) text)))) := by
  refine ⟨?_, ?_, ?_⟩
  · simp only [sendText, hb]
    by_cases hk : (net (replyTextReq b (normalizeWechatTarget dest) text)).ok = true
    · simp [hk]
    · simp [hk]
  · intro hok
    simp only [sendText, hb]
    simp [hok, sendOk]
  · intro hok
    simp only [sendText, hb]
    simp [hok]

/-- Witness for C8: the spec example, base URL `http://h/` (trailing slash
stripped), destination `wx:Bob`, text `hello`. -/
theorem C8_sendText_contract_witness :
    (sendText
      { channels := some { wechat := some { jsonBotBaseUrl := some "http://h/".data } } }
      "wx:Bob".data "hello".data (fun _ => { ok := true, status := some 200 }) 42).2
      = [{ url := "http://h/reply".data
           session_name := "Bob".data
           content := "hello".data
           ptype := "text".data
           timeoutMs := 5000 }]
    ∧ (sendText
      { channels := some { wechat := some { jsonBotBaseUrl := some "http://h/".data } } }
      "wx:Bob".data "hello".data (fun _ => { ok := true, status := some 200 }) 42).1
      = .ok { channel := "wechat".data
              messageId := "wechat:42".data
              chatId := "Bob".data } := by
  obtain ⟨h1, h2, -⟩ := C8_sendText_contract
    { channels := some { wechat := some { jsonBotBaseUrl := some "http://h/".data } } }
    "wx:Bob".data "hello".data (fun _ => { ok := true, status := some 200 }) 42
    "http://h".data (by decide)
  constructor
  · rw [h1]
    decide
  · rw [h2 (by decide)]
    rfl

/-- C10: `applyWechatConfig` (used by onboarding `configure`) and `disable`
are pure updates: every top-level field other than `channels` is unchanged,
every channel entry other than `wechat` is unchanged, and inside
`channels.wechat` only the patched fields change — `configure` forces
`enabled:true`, `disable` changes only `enabled` to `false`. -/
theorem C10_onboarding_frame (cfg : OpenClawConfig) (patch : WechatPatch) :
    ((applyWechatConfig cfg patch).extra = cfg.extra
    ∧ ((applyWechatConfig cfg patch).channels.getD {}).extra
        = (cfg.channels.getD {}).extra
    ∧ (((applyWechatConfig cfg patch).channels.getD {}).wechat.getD {}).enabled
        = some true
    ∧ (((applyWechatConfig cfg patch).channels.getD {}).wechat.getD {}).extra
        = ((cfg.channels.getD {}).wechat.getD {}).extra
    ∧ (patch.name = none →
        (((applyWechatConfig cfg patch).channels.getD {}).wechat.getD {}).name
          = ((cfg.channels.getD {}).wechat.getD {}).name)
    ∧ (patch.jsonBotBaseUrl = none →
        (((applyWechatConfig cfg patch).channels.getD {}).wechat.getD
            {}).jsonBotBaseUrl
          = ((cfg.channels.getD {}).wechat.getD {}).jsonBotBaseUrl)
    ∧ (patch.inboundToken = none →
        (((applyWechatConfig cfg patch).channels.getD {}).wechat.getD
            {}).inboundToken
          = ((cfg.channels.getD {}).wechat.getD {}).inboundToken))
    ∧ ((disableWechat cfg).extra = cfg.extra
    ∧ ((disableWechat cfg).channels.getD {}).extra
        = (cfg.channels.getD {}).extra
    ∧ ((disableWechat cfg).channels.getD {}).wechat.getD {}
        = { (cfg.channels.getD {}).wechat.getD {} with enabled := some false }) := by
  refine ⟨⟨?_, ?_, ?_, ?_, ?_, ?_, ?_⟩, ?_, ?_, ?_⟩
  · simp [applyWechatConfig]
  · simp [applyWechatConfig]
  · simp [applyWechatConfig]
  · simp [applyWechatConfig]
  · intro h
    simp [applyWechatConfig, h]
  · intro h
    simp [applyWechatConfig, h]
  · intro h
    simp [applyWechatConfig, h]
  · simp [disableWechat]
  · simp [disableWechat]
  · simp [disableWechat]

/-- Witness for C10: a patch setting only the base URL preserves the other
configured fields, and `disable` flips only `enabled`. -/
theorem C10_onboarding_frame_witness :
    (applyWechatConfig
      { channels := some
          { wechat := some
              { name := some "N".data
                inboundToken := some "t".data
                extra := [("k".data, "v".data)] }
            extra := [("tg".data, "x".data)] }
        extra := [("top".data, "y".data)] }
      { jsonBotBaseUrl := some (some "http://h".data) }).extra
      = [("top".data, "y".data)]
    ∧ (((applyWechatConfig
      { channels := some
          { wechat := some
              { name := some "N".data
                inboundToken := some "t".data
                extra := [("k".data, "v".data)] }
            extra := [("tg".data, "x".data)] }
        extra := [("top".data, "y".data)] }
      { jsonBotBaseUrl := some (some "http://h".data) }).channels.getD
        {}).wechat.getD {}).name = some "N".data := by
  obtain ⟨⟨h1, h2, h3, h4, h5, h6, h7⟩, hd⟩ := C10_onboarding_frame
    { channels := some
        { wechat := some
            { name := some "N".data
              inboundToken := some "t".data
              extra := [("k".data, "v".data)] }
          extra := [("tg".data, "x".data)] }
      extra := [("top".data, "y".data)] }
    { jsonBotBaseUrl := some (some "http://h".data) }
  exact ⟨h1, by rw [h5 rfl]; decide⟩

end WechatJsonBot
